import Mathlib

/-!
Verification of the two benchmark-comparison report generators in
`scripts/compare_benchmarks.py` and `scripts/compare_template_results.py`.

Both scripts are pure transformations from two parsed JSON documents to one
markdown string.  They are shallowly embedded as follows:

* Python floats are modelled as exact rationals (`ℚ`); the scripts only use
  `+ - * /`, comparisons and `abs`, which agree with ℚ up to floating-point
  rounding.
* Python dicts built by repeated assignment are modelled as association lists
  with overwrite-in-place insertion (`dictInsert`), matching `dict`'s
  insertion-order and overwrite semantics.
* Python `str.split(sep)` is modelled by a scanner (`splitSepF`) indexed by a
  fuel bounded below by the string length, so that every definition computes
  by kernel reduction; `pySplit` instantiates the fuel with the length.
* Python `sorted` on strings is modelled by a stable insertion sort under
  code-point lexicographic order (`pySorted`); the sorted inputs here are
  duplicate-free, for which every correct sort agrees with Python's.
* A raised `ZeroDivisionError` is modelled by `Except.error`; functions that
  cannot raise return plain values.
* Number formatting (`:+.1f`, `:.2f`, `:,`) is modelled by exact
  round-half-to-even decimal rendering of the rational value, and `f"{ns}"`
  on a raw number by exact rendering (integers as integers, other rationals
  as num/den), standing in for Python's shortest-round-trip float repr.
  These strings are treated as opaque by every theorem below.
-/

set_option maxRecDepth 200000

namespace CompareBench

/-- Decidable equality of `Except` results, used to state ground facts about
runs that may raise. -/
instance exceptDecEq {ε α : Type} [DecidableEq ε] [DecidableEq α] :
    DecidableEq (Except ε α) := fun x y =>
  match x, y with
  | Except.error a, Except.error b =>
    if h : a = b then Decidable.isTrue (by rw [h])
    else Decidable.isFalse fun hc => h (Except.error.inj hc)
  | Except.ok a, Except.ok b =>
    if h : a = b then Decidable.isTrue (by rw [h])
    else Decidable.isFalse fun hc => h (Except.ok.inj hc)
  | Except.error _, Except.ok _ => Decidable.isFalse fun hc => Except.noConfusion hc
  | Except.ok _, Except.error _ => Decidable.isFalse fun hc => Except.noConfusion hc

/-! ### Lexicographic string order (model of Python string comparison) -/

/-- Code-point lexicographic comparison of character lists, the order Python
uses to compare strings. -/
def lexLe : List Char → List Char → Bool
  | [], _ => true
  | _ :: _, [] => false
  | a :: as, b :: bs => if a < b then true else if a = b then lexLe as bs else false

/-- Python string `<=`. -/
def pyStrLe (a b : String) : Bool := lexLe a.data b.data

/-- The comparison `pyStrLe` is total. -/
instance pyStrLeTotal : IsTotal String (fun a b => pyStrLe a b = true) := by
  constructor
  intro a b
  unfold pyStrLe
  generalize a.data = x
  generalize b.data = y
  induction x generalizing y with
  | nil => left; rfl
  | cons c cs ih =>
    cases y with
    | nil => right; rfl
    | cons d ds =>
      rcases lt_trichotomy c d with h | h | h
      · left; simp [lexLe, h]
      · subst h
        rcases ih ds with h2 | h2
        · left; simp [lexLe, h2]
        · right; simp [lexLe, h2]
      · right; simp [lexLe, h, not_lt.mpr (le_of_lt h), ne_of_gt h]

/-- The comparison `pyStrLe` is transitive. -/
instance pyStrLeTrans : IsTrans String (fun a b => pyStrLe a b = true) := by
  constructor
  intro a b c
  unfold pyStrLe
  generalize a.data = x
  generalize b.data = y
  generalize c.data = z
  induction x generalizing y z with
  | nil => intro _ _; rfl
  | cons d ds ih =>
    cases y with
    | nil => intro h1; exact absurd h1 (by simp [lexLe])
    | cons e es =>
      cases z with
      | nil => intro _ h2; exact absurd h2 (by simp [lexLe])
      | cons f fs =>
        intro h1 h2
        simp only [lexLe] at h1 h2 ⊢
        rcases lt_trichotomy d e with hde | hde | hde
        · rcases lt_trichotomy e f with hef | hef | hef
          · simp [lt_trans hde hef]
          · subst hef; simp [hde]
          · rw [if_neg (not_lt.mpr hef.le), if_neg (ne_of_gt hef)] at h2
            exact absurd h2 (by simp)
        · subst hde
          rcases lt_trichotomy d f with hdf | hdf | hdf
          · simp [hdf]
          · subst hdf
            rw [if_neg (lt_irrefl d), if_pos rfl] at h1 h2 ⊢
            exact ih es fs h1 h2
          · rw [if_neg (not_lt.mpr hdf.le), if_neg (ne_of_gt hdf)] at h2
            exact absurd h2 (by simp)
        · rw [if_neg (not_lt.mpr hde.le), if_neg (ne_of_gt hde)] at h1
          exact absurd h1 (by simp)

/-- Python `sorted` on a list of strings (stable; the inputs sorted by the
scripts are duplicate-free, so any correct sort produces Python's output). -/
def pySorted (l : List String) : List String :=
  l.insertionSort (fun a b => pyStrLe a b = true)

/-! ### Number formatting -/

/-- Round to the nearest integer, ties to even: the rounding used by Python's
fixed-point float formatting. -/
def roundHalfEven (q : ℚ) : ℤ :=
  let f := ⌊q⌋
  if q - f < 1/2 then f
  else if q - f > 1/2 then f + 1
  else if f % 2 = 0 then f else f + 1

/-- Digits of `|q|` rounded to `prec` decimal places (no sign). -/
def fixedDigits (prec : Nat) (q : ℚ) : String :=
  let n := (roundHalfEven (|q| * 10 ^ prec)).toNat
  if prec = 0 then toString n
  else
    let ip := n / 10 ^ prec
    let fp := n % 10 ^ prec
    let fs := toString fp
    toString ip ++ "." ++ String.mk (List.replicate (prec - fs.length) '0') ++ fs

/-- Python `f"{q:.Pf}"`. -/
def pyFixed (prec : Nat) (q : ℚ) : String :=
  (if q < 0 then "-" else "") ++ fixedDigits prec q

/-- Python `f"{q:+.Pf}"` (explicit sign). -/
def pyFixedSigned (prec : Nat) (q : ℚ) : String :=
  (if q < 0 then "-" else "+") ++ fixedDigits prec q

/-- Insert thousands separators into a reversed digit list. -/
def commaGroupRev : Nat → List Char → List Char
  | _, [] => []
  | i, c :: cs =>
    if i ≠ 0 ∧ i % 3 = 0 then ',' :: c :: commaGroupRev (i + 1) cs
    else c :: commaGroupRev (i + 1) cs

/-- Python `f"{n:,}"` for a natural number. -/
def commaFmtNat (n : Nat) : String :=
  String.mk (commaGroupRev 0 (toString n).data.reverse).reverse

/-- Python `f"{n:,}"` for an integer. -/
def commaFmtInt (n : ℤ) : String :=
  if n < 0 then "-" ++ commaFmtNat n.natAbs else commaFmtNat n.toNat

/-- Python `f"{q}"` on a raw number: exact for integers; non-integral
rationals are rendered exactly as num/den (a stand-in for float repr; no
theorem below inspects this text). -/
def pyNum (q : ℚ) : String :=
  if q.den = 1 then toString q.num else toString q.num ++ "/" ++ toString q.den

/-- Python `format_duration_ns` (`compare_benchmarks.py` lines 13-22). -/
def format_duration_ns (ns : ℚ) : String :=
  if ns < 1000 then pyNum ns ++ "ns"
  else if ns < 1000000 then pyFixed 2 (ns / 1000) ++ "μs"
  else if ns < 1000000000 then pyFixed 2 (ns / 1000000) ++ "ms"
  else pyFixed 2 (ns / 1000000000) ++ "s"

/-- Python `format_throughput` (`compare_benchmarks.py` lines 25-32). -/
def format_throughput (paths_per_sec : ℚ) : String :=
  if paths_per_sec ≥ 1000000 then pyFixed 2 (paths_per_sec / 1000000) ++ "M/s"
  else if paths_per_sec ≥ 1000 then pyFixed 2 (paths_per_sec / 1000) ++ "K/s"
  else pyFixed 2 paths_per_sec ++ "/s"

/-- Python `format_time_ms` (`compare_template_results.py` lines 51-59). -/
def format_time_ms (seconds : ℚ) : String :=
  let ms := seconds * 1000
  if ms < 1 then pyFixed 2 (ms * 1000) ++ "μs"
  else if ms < 1000 then pyFixed 2 ms ++ "ms"
  else pyFixed 2 (ms / 1000) ++ "s"

/-! ### The delta classifier -/

/-- The emoji chain of `calculate_change` for a lower-is-better metric
(`compare_benchmarks.py` lines 42-54 and the identical copy in
`compare_template_results.py` lines 73-85), as a function of the computed
percentage change. -/
def latency_emoji (change_pct : ℚ) : String :=
  if |change_pct| < 2 then "➖"
  else if change_pct < -5 then "🟢"
  else if change_pct < -2 then "✅"
  else if change_pct > 10 then "🔴"
  else if change_pct > 5 then "⚠️"
  else "🟡"

/-- Python `calculate_change(baseline, current)` (identical in both scripts):
percentage change plus emoji indicator, with the `baseline == 0` guard
returning `(0.0, "➖")`. -/
def calculate_change (baseline current : ℚ) : ℚ × String :=
  if baseline = 0 then (0, "➖")
  else
    let change_pct := (current - baseline) / baseline * 100
    (change_pct, latency_emoji change_pct)

/-- The inverted emoji chain for the higher-is-better throughput column,
`compare_benchmarks.py` lines 140-154 (note the final `else` fall-through to
`"➖"`). -/
def throughput_emoji (throughput_change : ℚ) : String :=
  if |throughput_change| < 2 then "➖"
  else if throughput_change > 5 then "🟢"
  else if throughput_change > 2 then "✅"
  else if throughput_change < -10 then "🔴"
  else if throughput_change < -5 then "⚠️"
  else if throughput_change < -2 then "🟡"
  else "➖"

/-! ### Python dicts as association lists -/

/-- Python `d[k] = v`: overwrite in place if the key exists (keys are unique
by construction, so replacing the first hit is the overwrite), else append. -/
def dictInsert {α : Type} : List (String × α) → String → α → List (String × α)
  | [], k, v => [(k, v)]
  | p :: d, k, v => if p.1 == k then (k, v) :: d else p :: dictInsert d k v

/-- Python `d[k]` / `d.get(k)` as an `Option`. -/
def dictGet {α : Type} (d : List (String × α)) (k : String) : Option α :=
  (d.find? (fun p => p.1 == k)).map Prod.snd

/-- Python `d.keys()` (in insertion order; duplicate-free by construction). -/
def dictKeys {α : Type} (d : List (String × α)) : List String :=
  d.map Prod.fst

/-! ### Python str.split -/

/-- Fuel-indexed left-to-right scanner behind `pySplit`; consumes the
separator on a match exactly as Python `str.split(sep)` does.  The fuel only
needs to dominate the string length. -/
def splitSepF (sep : List Char) : Nat → List Char → List (List Char)
  | _, [] => [[]]
  | 0, s => [s]
  | fuel + 1, c :: rest =>
    if sep.isPrefixOf (c :: rest) then
      [] :: splitSepF sep fuel ((c :: rest).drop sep.length)
    else
      (splitSepF sep fuel rest).modifyHead (c :: ·)

/-- Python `s.split(sep)` for a non-empty separator. -/
def pySplit (sep s : List Char) : List (List Char) := splitSepF sep s.length s

/-- Whether `sep` occurs as a contiguous segment of `s`. -/
def hasOcc (sep : List Char) : List Char → Bool
  | [] => sep.isEmpty
  | c :: rest => sep.isPrefixOf (c :: rest) || hasOcc sep rest

/-- The separator string `"--template "` used by the hyperfine adapter. -/
def tmpl_sep : List Char := "--template ".data

/-- Python `extract_template_from_command`
(`compare_template_results.py` lines 38-48): split on `"--template "`; if
fewer than two parts, `"unknown"`, else the second part up to the first
space. -/
def extract_template_from_command (command : String) : String :=
  match pySplit tmpl_sep command.data with
  | _ :: part1 :: _ => String.mk ((pySplit [' '] part1).headD [])
  | _ => "unknown"

/-- The suffix of a string immediately after the first occurrence of `sep`;
`none` when `sep` does not occur. -/
def afterFirstOcc (sep : List Char) : List Char → Option (List Char)
  | [] => if sep.isEmpty then some [] else none
  | c :: rest =>
    if sep.isPrefixOf (c :: rest) then some ((c :: rest).drop sep.length)
    else afterFirstOcc sep rest

/-- The prefix of a string before the first occurrence of `sep`; the whole
string when `sep` does not occur. -/
def upToFirstOcc (sep : List Char) : List Char → List Char
  | [] => []
  | c :: rest =>
    if sep.isPrefixOf (c :: rest) then [] else c :: upToFirstOcc sep rest

/-- The prefix of a string up to its first space: the reading of
"the whitespace-delimited value that follows". -/
def takeUntilSpace : List Char → List Char
  | [] => []
  | c :: rest => if c = ' ' then [] else c :: takeUntilSpace rest

/-- The claim's reading of the extractor, following the spec's words: the
whitespace-delimited value immediately following the FIRST `"--template "`
token, and `"unknown"` when the token is absent. -/
def claimed_extract (command : String) : String :=
  match afterFirstOcc tmpl_sep command.data with
  | none => "unknown"
  | some w => String.mk (takeUntilSpace w)

/-! ### Custom-schema adapter (`compare_benchmarks.py`) data model -/

/-- The `latency_stats` sub-object; only `p95` is read by the script. -/
structure LatencyStats where
  p95 : ℚ
deriving DecidableEq

/-- One element of an entry's `results` array; the fields the script reads. -/
structure BenchResult where
  input_size : ℤ
  avg_time_per_path : ℚ
  latency_stats : LatencyStats
  throughput_paths_per_sec : ℚ
deriving DecidableEq

/-- One element of the top-level `benchmarks` array. -/
structure BenchEntry where
  template_name : String
  results : List BenchResult
deriving DecidableEq

/-- A parsed custom-schema JSON document. -/
structure BenchFile where
  timestamp : Option String
  benchmarks : List BenchEntry
deriving DecidableEq

/-- The lookup-dictionary build loop (`compare_benchmarks.py` lines 71-82):
for each entry with a non-empty `results` array, map its name to the last
result; entries with empty `results` are skipped. -/
def build_results (benches : List BenchEntry) : List (String × BenchResult) :=
  benches.foldl
    (fun d bench =>
      match bench.results.getLast? with
      | some r => dictInsert d bench.template_name r
      | none => d)
    []

/-- Python local `all_templates` (line 112): the sorted union of the two
key sets. -/
def all_templates (b c : BenchFile) : List String :=
  pySorted
    ((dictKeys (build_results b.benchmarks) ++
      dictKeys (build_results c.benchmarks)).dedup)

/-- The join step shared by both adapters: keep a name only when both
lookups succeed, pairing the two records. -/
def joinPair {B C : Type} (g₁ : String → Option B) (g₂ : String → Option C)
    (t : String) : Option (String × B × C) :=
  match g₁ t, g₂ t with
  | some rb, some rc => some (t, rb, rc)
  | _, _ => none

/-- The row loop's join (lines 114-122): visit `all_templates` in order, skip
names missing from either side, pair the two records otherwise. -/
def joined_benchmarks (b c : BenchFile) :
    List (String × BenchResult × BenchResult) :=
  (all_templates b c).filterMap
    (joinPair (dictGet (build_results b.benchmarks))
      (dictGet (build_results c.benchmarks)))

/-- One table row (lines 124-173).  The throughput delta divides by the
baseline value directly (lines 137-139), with no zero guard: a zero baseline
raises `ZeroDivisionError`, modelled as `Except.error`. -/
def bench_row (template_name : String) (base curr : BenchResult) :
    Except String (String × String) :=
  let avg := calculate_change base.avg_time_per_path curr.avg_time_per_path
  let p95 := calculate_change base.latency_stats.p95 curr.latency_stats.p95
  if base.throughput_paths_per_sec = 0 then
    Except.error "float division by zero"
  else
    let throughput_change :=
      (curr.throughput_paths_per_sec - base.throughput_paths_per_sec) /
        base.throughput_paths_per_sec * 100
    Except.ok (template_name,
      "| " ++ template_name
        ++ " | " ++ format_duration_ns curr.avg_time_per_path
        ++ " | " ++ avg.2 ++ " " ++ pyFixedSigned 1 avg.1 ++ "%"
        ++ " | " ++ format_duration_ns curr.latency_stats.p95
        ++ " | " ++ p95.2 ++ " " ++ pyFixedSigned 1 p95.1 ++ "%"
        ++ " | " ++ format_throughput curr.throughput_paths_per_sec
        ++ " | " ++ throughput_emoji throughput_change ++ " "
        ++ pyFixedSigned 1 throughput_change ++ "% |")

/-- All table rows, in loop order; the first raised error aborts the run. -/
def bench_rows (b c : BenchFile) : Except String (List (String × String)) :=
  (joined_benchmarks b c).mapM fun x => bench_row x.1 x.2.1 x.2.2

/-- The primary (avg latency) percentage change of one joined item. -/
def bench_avg_change (x : String × BenchResult × BenchResult) : ℚ :=
  (calculate_change x.2.1.avg_time_per_path x.2.2.avg_time_per_path).1

/-- The `regressions` list accumulated by the loop (lines 156-158). -/
def bench_regressions (b c : BenchFile) : List (String × ℚ) :=
  (joined_benchmarks b c).filterMap fun x =>
    let ch := bench_avg_change x
    if ch > 10 then some (x.1, ch) else none

/-- The `improvements` list accumulated by the loop (lines 159-160). -/
def bench_improvements (b c : BenchFile) : List (String × ℚ) :=
  (joined_benchmarks b c).filterMap fun x =>
    let ch := bench_avg_change x
    if ch > 10 then none else if ch < -5 then some (x.1, ch) else none

/-- The `neutral` list accumulated by the loop (lines 161-162). -/
def bench_neutral (b c : BenchFile) : List String :=
  (joined_benchmarks b c).filterMap fun x =>
    let ch := bench_avg_change x
    if ch > 10 then none else if ch < -5 then none else some x.1

/-- The full line list of the custom-schema report (lines 84-206), given the
already-formatted table rows. -/
def bench_report_lines (b c : BenchFile) (rows : List (String × String)) :
    List String :=
  let input_size : ℤ :=
    match c.benchmarks with
    | [] => 0
    | e :: _ =>
      match e.results.getLast? with
      | some r => r.input_size
      | none => 0
  let regressions := bench_regressions b c
  let improvements := bench_improvements b c
  ["# 📊 Benchmark Comparison Report\n",
   "**Input Size:** " ++ commaFmtInt input_size ++ " paths\n",
   "**Baseline Timestamp:** " ++ b.timestamp.getD "unknown",
   "**Current Timestamp:** " ++ c.timestamp.getD "unknown" ++ "\n",
   "## Performance Comparison\n",
   "| Template | Avg/Path | Change | p95 | Change | Throughput | Change |",
   "|----------|----------|--------|-----|--------|------------|--------|"]
  ++ rows.map Prod.snd
  ++ [""]
  ++ ["## Summary\n",
      "- **Total templates compared:** " ++ toString (all_templates b c).length,
      "- **Improvements:** " ++ toString improvements.length ++ " 🟢",
      "- **Regressions:** " ++ toString regressions.length ++ " 🔴",
      "- **Neutral:** " ++ toString (bench_neutral b c).length ++ " ➖\n"]
  ++ (if regressions = [] then []
      else
        ["### ⚠️ PERFORMANCE REGRESSIONS\n"]
        ++ (regressions.insertionSort (fun x y => y.2 ≤ x.2)).map
            (fun p => "- **" ++ p.1 ++ "**: " ++ pyFixedSigned 1 p.2 ++ "% slower")
        ++ [""])
  ++ (if improvements = [] then []
      else
        ["### ✨ Performance Improvements\n"]
        ++ (improvements.insertionSort (fun x y => x.2 ≤ y.2)).map
            (fun p => "- **" ++ p.1 ++ "**: " ++ pyFixed 1 |p.2| ++ "% faster")
        ++ [""])
  ++ ["---\n",
      "### Legend",
      "- 🟢 Significant improvement (>5% faster)",
      "- ✅ Improvement (2-5% faster)",
      "- ➖ Neutral (<2% change)",
      "- 🟡 Caution (2-5% slower)",
      "- ⚠️ Warning (5-10% slower)",
      "- 🔴 Regression (>10% slower)"]

/-- Python `compare_benchmarks` on two parsed documents: the markdown
report, or the propagated division-by-zero error. -/
def compare_benchmarks (b c : BenchFile) : Except String String :=
  (bench_rows b c).map fun rows => "\n".intercalate (bench_report_lines b c rows)

/-! ### Hyperfine adapter (`compare_template_results.py`) data model -/

/-- One element of the hyperfine `results` array; the fields read by the
script (`command` plus the timing statistics, in seconds). -/
structure HFResult where
  command : String
  mean : ℚ
  min : ℚ
  max : ℚ
  stddev : ℚ
deriving DecidableEq

/-- A parsed hyperfine JSON document. -/
structure HFFile where
  results : List HFResult
deriving DecidableEq

/-- The per-template lookup build loop (`compare_template_results.py`
lines 100-108); colliding extracted names silently overwrite. -/
def by_template (rs : List HFResult) : List (String × HFResult) :=
  rs.foldl
    (fun d r => dictInsert d (extract_template_from_command r.command) r)
    []

/-- Python local `common_templates` (lines 110-113): the sorted intersection
of the two key sets. -/
def common_templates (hb hc : HFFile) : List String :=
  pySorted
    (((dictKeys (by_template hb.results)).filter
        (fun k => (dictKeys (by_template hc.results)).contains k)).dedup)

/-- The row loop's join (lines 141-143): each common template paired with
its two records. -/
def joined_hf (hb hc : HFFile) : List (String × HFResult × HFResult) :=
  (common_templates hb hc).filterMap
    (joinPair (dictGet (by_template hb.results))
      (dictGet (by_template hc.results)))

/-- One hyperfine table row (lines 144-187), including the
coefficient-of-variation note. -/
def hf_row (x : String × HFResult × HFResult) : String × String :=
  let change := calculate_change x.2.1.mean x.2.2.mean
  let cv := if x.2.2.mean > 0 then x.2.2.stddev / x.2.2.mean * 100 else 0
  let notes := if cv > 10 then ["high variance"] else []
  let notes_str := if notes.isEmpty then "—" else ", ".intercalate notes
  (x.1,
    "| `" ++ x.1 ++ "` | " ++ format_time_ms x.2.1.mean
      ++ " | " ++ format_time_ms x.2.2.mean
      ++ " | " ++ change.2 ++ " " ++ pyFixedSigned 1 change.1 ++ "%"
      ++ " | " ++ format_time_ms x.2.2.min
      ++ " | " ++ format_time_ms x.2.2.max
      ++ " | ±" ++ format_time_ms x.2.2.stddev
      ++ " | " ++ notes_str ++ " |")

/-- All hyperfine table rows, in loop order. -/
def hf_rows (hb hc : HFFile) : List (String × String) :=
  (joined_hf hb hc).map hf_row

/-- The mean-time percentage change of one joined item. -/
def hf_change (x : String × HFResult × HFResult) : ℚ :=
  (calculate_change x.2.1.mean x.2.2.mean).1

/-- The `regressions` list accumulated by the loop (lines 155-157). -/
def hf_regressions (hb hc : HFFile) :
    List ((String × HFResult × HFResult) × ℚ) :=
  (joined_hf hb hc).filterMap fun x =>
    let ch := hf_change x
    if ch > 10 then some (x, ch) else none

/-- The `improvements` list accumulated by the loop (lines 158-159). -/
def hf_improvements (hb hc : HFFile) :
    List ((String × HFResult × HFResult) × ℚ) :=
  (joined_hf hb hc).filterMap fun x =>
    let ch := hf_change x
    if ch > 10 then none else if ch < -5 then some (x, ch) else none

/-- The `neutral` list accumulated by the loop (lines 160-161). -/
def hf_neutral (hb hc : HFFile) : List String :=
  (joined_hf hb hc).filterMap fun x =>
    let ch := hf_change x
    if ch > 10 then none else if ch < -5 then none else some x.1

/-- The full line list of the hyperfine report (lines 118-241), used when at
least one common template exists. -/
def hf_report_lines (hb hc : HFFile) (baseline_name current_name : String)
    (input_size : Option ℤ) : List String :=
  let regressions := hf_regressions hb hc
  let improvements := hf_improvements hb hc
  ["# 📊 Per-Template Benchmark Analysis\n",
   "**Baseline:** `" ++ baseline_name ++ "`",
   "**Current:** `" ++ current_name ++ "`"]
  ++ (match input_size with
      | none => []
      | some n =>
        if n = 0 then []
        else ["**Input size:** " ++ commaFmtInt n ++ " paths per run"])
  ++ ["**Templates analyzed:** " ++ toString (common_templates hb hc).length ++ "\n",
      "## Performance Comparison\n",
      "| Template | Baseline Mean | Current Mean | Change | Min | Max | StdDev | Notes |",
      "|----------|---------------|--------------|--------|-----|-----|--------|-------|"]
  ++ (hf_rows hb hc).map Prod.snd
  ++ [""]
  ++ ["## Summary\n",
      "- **Total templates:** " ++ toString (common_templates hb hc).length,
      "- **Improvements:** " ++ toString improvements.length ++ " 🟢",
      "- **Regressions:** " ++ toString regressions.length ++ " 🔴",
      "- **Neutral:** " ++ toString (hf_neutral hb hc).length ++ " ➖\n"]
  ++ (if regressions = [] then []
      else
        ["### ⚠️ Performance Regressions\n"]
        ++ (regressions.insertionSort (fun x y => y.2 ≤ x.2)).map
            (fun p =>
              "- **`" ++ p.1.1 ++ "`**: " ++ pyFixedSigned 1 p.2 ++ "% slower ("
                ++ format_time_ms p.1.2.1.mean ++ " → "
                ++ format_time_ms p.1.2.2.mean ++ ")")
        ++ [""])
  ++ (if improvements = [] then []
      else
        ["### ✨ Performance Improvements\n"]
        ++ (improvements.insertionSort (fun x y => x.2 ≤ y.2)).map
            (fun p =>
              "- **`" ++ p.1.1 ++ "`**: " ++ pyFixed 1 |p.2| ++ "% faster ("
                ++ format_time_ms p.1.2.1.mean ++ " → "
                ++ format_time_ms p.1.2.2.mean ++ ")")
        ++ [""])
  ++ ["## Statistical Notes\n",
      "All measurements include statistical confidence from hyperfine:",
      "- **Mean**: Average execution time across all runs",
      "- **Min/Max**: Fastest and slowest runs observed",
      "- **StdDev**: Standard deviation (measure of consistency)",
      "- **High variance**: Templates with coefficient of variation >10%\n"]
  ++ ["---\n",
      "### Legend",
      "- 🟢 Significant improvement (>5% faster)",
      "- ✅ Improvement (2-5% faster)",
      "- ➖ Neutral (<2% change)",
      "- 🟡 Caution (2-5% slower)",
      "- ⚠️ Warning (5-10% slower)",
      "- 🔴 Regression (>10% slower)"]

/-- The explicit error text returned when no template is common
(`compare_template_results.py` line 116). -/
def no_common_msg : String :=
  "Error: No common templates found between baseline and current results."

/-- Python `generate_comparison_report` on two parsed hyperfine documents. -/
def generate_comparison_report (baseline_data current_data : HFFile)
    (baseline_name current_name : String) (input_size : Option ℤ) : String :=
  if common_templates baseline_data current_data = [] then no_common_msg
  else
    "\n".intercalate
      (hf_report_lines baseline_data current_data baseline_name current_name
        input_size)

/-! ### Concrete example inputs used by witnesses and counterexamples -/

/-- A baseline custom-schema document with the single template `"alpha"`. -/
def exBench1 : BenchFile :=
  { timestamp := some "2024-01-01",
    benchmarks :=
      [{ template_name := "alpha",
         results :=
           [{ input_size := 1000, avg_time_per_path := 100,
              latency_stats := { p95 := 150 },
              throughput_paths_per_sec := 10000 }] }] }

/-- A current custom-schema document with the single template `"beta"`
(disjoint from `exBench1`). -/
def exBench2 : BenchFile :=
  { timestamp := some "2024-01-02",
    benchmarks :=
      [{ template_name := "beta",
         results :=
           [{ input_size := 1000, avg_time_per_path := 90,
              latency_stats := { p95 := 140 },
              throughput_paths_per_sec := 11000 }] }] }

/-- A benchmark result record with zero throughput. -/
def exResult0 : BenchResult :=
  { input_size := 10, avg_time_per_path := 100,
    latency_stats := { p95 := 100 }, throughput_paths_per_sec := 0 }

/-- A benchmark result record with throughput 5. -/
def exResult5 : BenchResult :=
  { input_size := 10, avg_time_per_path := 100,
    latency_stats := { p95 := 100 }, throughput_paths_per_sec := 5 }

/-- A baseline document whose only template `"gamma"` has zero baseline
throughput. -/
def exBench3 : BenchFile :=
  { timestamp := none,
    benchmarks := [{ template_name := "gamma", results := [exResult0] }] }

/-- A current document sharing template `"gamma"` with `exBench3`. -/
def exBench4 : BenchFile :=
  { timestamp := none,
    benchmarks := [{ template_name := "gamma", results := [exResult5] }] }

/-- A hyperfine run record whose command selects template `"foo"`. -/
def exHFRes : HFResult :=
  { command := "bench --template foo --size 1000 --output /dev/null",
    mean := 1, min := 1, max := 1, stddev := 0 }

/-- A hyperfine document whose single command selects template `"foo"`. -/
def exHF1 : HFFile := { results := [exHFRes] }

/-- A hyperfine document whose single command selects template `"bar"`
(disjoint from `exHF1`). -/
def exHF2 : HFFile :=
  { results :=
      [{ command := "bench --template bar --size 1000 --output /dev/null",
         mean := 2, min := 2, max := 2, stddev := 0 }] }

/-! ### Statements of the claims under test, as written -/

/-- Claim C2 as stated: for non-zero baselines the lower-is-better chain
classifies with neutral first, then the listed conditions in order, and
caution holds exactly when `2 < pct_change ≤ 5`. -/
def C2_claim_as_stated : Prop :=
  ∀ b c : ℚ, b ≠ 0 →
    let pc := (c - b) / b * 100
    (calculate_change b c).1 = pc ∧
    (|pc| < 2 → (calculate_change b c).2 = "➖") ∧
    (¬ |pc| < 2 → pc < -5 → (calculate_change b c).2 = "🟢") ∧
    (¬ |pc| < 2 → ¬ pc < -5 → pc < -2 → (calculate_change b c).2 = "✅") ∧
    (¬ |pc| < 2 → ¬ pc < -5 → ¬ pc < -2 → pc > 10 →
      (calculate_change b c).2 = "🔴") ∧
    (¬ |pc| < 2 → ¬ pc < -5 → ¬ pc < -2 → ¬ pc > 10 → pc > 5 →
      (calculate_change b c).2 = "⚠️") ∧
    ((calculate_change b c).2 = "🟡" ↔ 2 < pc ∧ pc ≤ 5)

/-- Claim C3 as stated: for non-zero baselines the throughput chain
classifies with neutral first and sign-inverted thresholds, the neutral band
being exactly `|pct_change| < 2`. -/
def C3_claim_as_stated : Prop :=
  ∀ b c : ℚ, b ≠ 0 →
    let pc := (c - b) / b * 100
    ((throughput_emoji pc = "➖") ↔ |pc| < 2) ∧
    (¬ |pc| < 2 → pc > 5 → throughput_emoji pc = "🟢") ∧
    (¬ |pc| < 2 → ¬ pc > 5 → pc > 2 → throughput_emoji pc = "✅") ∧
    (¬ |pc| < 2 → ¬ pc > 5 → ¬ pc > 2 → pc < -10 →
      throughput_emoji pc = "🔴") ∧
    (¬ |pc| < 2 → ¬ pc > 5 → ¬ pc > 2 → ¬ pc < -10 → pc < -5 →
      throughput_emoji pc = "⚠️") ∧
    (-5 ≤ pc → pc < -2 → throughput_emoji pc = "🟡")

/-- Claim C5 as stated: with disjoint item-name sets, both adapters return
an explicit textual "no common items" error rather than a degenerate
report. -/
def C5_claim_as_stated : Prop :=
  (∀ (hb hc : HFFile) (bn cn : String) (isz : Option ℤ),
      common_templates hb hc = [] →
      generate_comparison_report hb hc bn cn isz = no_common_msg) ∧
  (∀ (b c : BenchFile) (s : String),
      (dictKeys (build_results b.benchmarks)).filter
          (fun k => (dictKeys (build_results c.benchmarks)).contains k) = [] →
      compare_benchmarks b c = Except.ok s →
      hasOcc "No common".data s.data = true)

/-- Claim C9 as stated: for every hyperfine command string the extracted
identifier is the whitespace-delimited value immediately following the
first `"--template "` token (`"unknown"` when the token is absent). -/
def C9_claim_as_stated : Prop :=
  ∀ cmd : String, extract_template_from_command cmd = claimed_extract cmd

/-! ## Helper lemmas -/

/-- Lookup after insertion behaves like a map update. -/
theorem dictGet_insert {α : Type} (d : List (String × α)) (k : String) (v : α)
    (q : String) :
    dictGet (dictInsert d k v) q = if q = k then some v else dictGet d q := by
  induction d with
  | nil =>
    by_cases h : q = k
    · subst h
      simp [dictInsert, dictGet, List.find?]
    · have hf : (k == q) = false := by simpa using Ne.symm h
      simp [dictInsert, dictGet, List.find?, hf, h]
  | cons p d ih =>
    by_cases hp : p.1 = k
    · have hpb : (p.1 == k) = true := by simpa using hp
      rw [show dictInsert (p :: d) k v = (k, v) :: d by
        simp [dictInsert, hpb]]
      by_cases h : q = k
      · subst h
        simp [dictGet, List.find?]
      · have hf1 : (k == q) = false := by simpa using Ne.symm h
        have hf2 : (p.1 == q) = false := by
          rw [hp]; simpa using Ne.symm h
        simp [dictGet, List.find?, hf1, hf2, h]
    · have hpb : (p.1 == k) = false := by simpa using hp
      rw [show dictInsert (p :: d) k v = p :: dictInsert d k v by
        simp [dictInsert, hpb]]
      by_cases hq : p.1 = q
      · have hqb : (p.1 == q) = true := by simpa using hq
        have hqk : ¬ q = k := fun hc => hp (hq.trans hc)
        simp [dictGet, List.find?, hqb, hqk]
      · have hqb : (p.1 == q) = false := by simpa using hq
        simp only [dictGet, List.find?, hqb] at ih ⊢
        exact ih

/-- Key membership after insertion. -/
theorem mem_dictKeys_insert {α : Type} (d : List (String × α)) (k : String)
    (v : α) (q : String) :
    q ∈ dictKeys (dictInsert d k v) ↔ q = k ∨ q ∈ dictKeys d := by
  induction d with
  | nil => simp [dictInsert, dictKeys]
  | cons p d ih =>
    simp only [dictInsert]
    by_cases hp : p.1 == k
    · rw [if_pos hp]
      have hp' : p.1 = k := by simpa using hp
      simp [dictKeys, hp']
    · rw [if_neg hp]
      simp only [dictKeys, List.map_cons, List.mem_cons] at *
      rw [ih]
      tauto

/-- A successful lookup implies key membership. -/
theorem mem_dictKeys_of_get {α : Type} {d : List (String × α)} {k : String}
    {v : α} (h : dictGet d k = some v) : k ∈ dictKeys d := by
  unfold dictGet at h
  cases hf : d.find? (fun p => p.1 == k) with
  | none => rw [hf] at h; simp at h
  | some p =>
    have hmem := List.mem_of_find?_eq_some hf
    have hpred : (p.1 == k) = true :=
      @List.find?_some (String × α) (fun x => x.1 == k) p d hf
    have : p.1 = k := by simpa using hpred
    subst this
    exact List.mem_map.mpr ⟨p, hmem, rfl⟩

/-- A successful `joinPair` means both lookups succeeded on its name. -/
theorem joinPair_eq_some {B C : Type} {g₁ : String → Option B}
    {g₂ : String → Option C} {t : String} {y : String × B × C}
    (h : joinPair g₁ g₂ t = some y) :
    y.1 = t ∧ g₁ t = some y.2.1 ∧ g₂ t = some y.2.2 := by
  unfold joinPair at h
  cases h₁ : g₁ t with
  | none => rw [h₁] at h; cases h₂ : g₂ t <;> rw [h₂] at h <;> cases h
  | some rb =>
    rw [h₁] at h
    cases h₂ : g₂ t with
    | none => rw [h₂] at h; cases h
    | some rc =>
      rw [h₂] at h
      obtain rfl : (t, rb, rc) = y := by simpa using h
      exact ⟨rfl, rfl, rfl⟩

/-- Membership in the custom-schema join implies both lookups succeed and
the name was drawn from `all_templates`. -/
theorem mem_joined_benchmarks {b c : BenchFile}
    {x : String × BenchResult × BenchResult}
    (h : x ∈ joined_benchmarks b c) :
    dictGet (build_results b.benchmarks) x.1 = some x.2.1 ∧
    dictGet (build_results c.benchmarks) x.1 = some x.2.2 ∧
    x.1 ∈ all_templates b c := by
  obtain ⟨t, hmem, heq⟩ := List.mem_filterMap.mp h
  obtain ⟨h1, h2, h3⟩ := joinPair_eq_some heq
  rw [h1]
  exact ⟨h2, h3, h1 ▸ hmem⟩

/-- Membership in the hyperfine join implies both lookups succeed and the
name was drawn from `common_templates`. -/
theorem mem_joined_hf {hb hc : HFFile} {x : String × HFResult × HFResult}
    (h : x ∈ joined_hf hb hc) :
    dictGet (by_template hb.results) x.1 = some x.2.1 ∧
    dictGet (by_template hc.results) x.1 = some x.2.2 ∧
    x.1 ∈ common_templates hb hc := by
  obtain ⟨t, hmem, heq⟩ := List.mem_filterMap.mp h
  obtain ⟨h1, h2, h3⟩ := joinPair_eq_some heq
  rw [h1]
  exact ⟨h2, h3, h1 ▸ hmem⟩

/-- The names of a join are a sublist of the name list it filters. -/
theorem filterMap_joinPair_fst_sublist {B C : Type} (g₁ : String → Option B)
    (g₂ : String → Option C) (l : List String) :
    ((l.filterMap (joinPair g₁ g₂)).map Prod.fst).Sublist l := by
  induction l with
  | nil => simp
  | cons t l ih =>
    rw [List.filterMap_cons]
    cases hm : joinPair g₁ g₂ t with
    | none => exact ih.cons t
    | some y =>
      rw [List.map_cons, (joinPair_eq_some hm).1]
      exact ih.cons₂ t

/-- Python `sorted` output is sorted under `pyStrLe`. -/
theorem sorted_pySorted (l : List String) :
    (pySorted l).Sorted (fun a b => pyStrLe a b = true) :=
  List.sorted_insertionSort _ l

/-- Exhausting the list yields the singleton empty piece, at any fuel. -/
theorem splitSepF_nil (sep : List Char) (f : Nat) : splitSepF sep f [] = [[]] := by
  cases f <;> rfl

/-- One scanning step with fuel available. -/
theorem splitSepF_succ_cons (sep : List Char) (f : Nat) (c : Char)
    (rest : List Char) :
    splitSepF sep (f + 1) (c :: rest) =
      if sep.isPrefixOf (c :: rest) then
        [] :: splitSepF sep f ((c :: rest).drop sep.length)
      else (splitSepF sep f rest).modifyHead (c :: ·) := rfl

/-- A non-empty separator has positive length. -/
theorem sep_length_pos {sep : List Char} (hsep : sep ≠ []) : 1 ≤ sep.length := by
  cases sep with
  | nil => exact absurd rfl hsep
  | cons a as => simp

/-- The scanner is fuel-irrelevant above the string length (for a non-empty
separator every step strictly shrinks the string). -/
theorem splitSepF_fuel {sep : List Char} (hsep : sep ≠ []) :
    ∀ (f₁ f₂ : Nat) (s : List Char), s.length ≤ f₁ → s.length ≤ f₂ →
      splitSepF sep f₁ s = splitSepF sep f₂ s := by
  intro f₁
  induction f₁ with
  | zero =>
    intro f₂ s h1 h2
    have hs : s = [] := List.eq_nil_of_length_eq_zero (Nat.le_zero.mp h1)
    subst hs
    rw [splitSepF_nil, splitSepF_nil]
  | succ g ih =>
    intro f₂ s h1 h2
    cases s with
    | nil => rw [splitSepF_nil, splitSepF_nil]
    | cons c rest =>
      cases f₂ with
      | zero => simp at h2
      | succ g₂ =>
        rw [splitSepF_succ_cons, splitSepF_succ_cons]
        have hsl := sep_length_pos hsep
        by_cases hp : sep.isPrefixOf (c :: rest)
        · rw [if_pos hp, if_pos hp]
          congr 1
          apply ih
          · rw [List.length_drop]
            simp only [List.length_cons] at h1 ⊢
            omega
          · rw [List.length_drop]
            simp only [List.length_cons] at h2 ⊢
            omega
        · rw [if_neg hp, if_neg hp]
          congr 1
          apply ih
          · simp only [List.length_cons] at h1
            omega
          · simp only [List.length_cons] at h2
            omega

/-- The scanner never returns an empty part list. -/
theorem splitSepF_ne_nil (sep : List Char) :
    ∀ (f : Nat) (s : List Char), splitSepF sep f s ≠ [] := by
  intro f
  induction f with
  | zero =>
    intro s
    cases s <;> simp [splitSepF]
  | succ g ih =>
    intro s
    cases s with
    | nil => simp [splitSepF_nil]
    | cons c rest =>
      rw [splitSepF_succ_cons]
      by_cases hp : sep.isPrefixOf (c :: rest)
      · rw [if_pos hp]; simp
      · rw [if_neg hp]
        cases hs : splitSepF sep g rest with
        | nil => exact absurd hs (ih rest)
        | cons x xs => simp

/-- A string with no separator occurrence is returned whole. -/
theorem splitSepF_no_occ {sep : List Char} :
    ∀ (f : Nat) (s : List Char), s.length ≤ f → hasOcc sep s = false →
      splitSepF sep f s = [s] := by
  intro f
  induction f with
  | zero =>
    intro s h1 h2
    have hs : s = [] := List.eq_nil_of_length_eq_zero (Nat.le_zero.mp h1)
    subst hs
    rw [splitSepF_nil]
  | succ g ih =>
    intro s h1 h2
    cases s with
    | nil => rw [splitSepF_nil]
    | cons c rest =>
      unfold hasOcc at h2
      rw [Bool.or_eq_false_iff] at h2
      rw [splitSepF_succ_cons, if_neg (by simp [h2.1])]
      rw [ih rest (by simp at h1; omega) h2.2]
      rfl

/-- Python split of a string with no separator occurrence. -/
theorem pySplit_no_occ {sep : List Char} (s : List Char)
    (h : hasOcc sep s = false) : pySplit sep s = [s] :=
  splitSepF_no_occ s.length s le_rfl h

/-- With a non-empty separator, `afterFirstOcc` fails exactly when the
separator does not occur. -/
theorem afterFirstOcc_none_iff {sep : List Char} (hsep : sep ≠ []) :
    ∀ s : List Char, afterFirstOcc sep s = none ↔ hasOcc sep s = false := by
  intro s
  induction s with
  | nil =>
    have he : sep.isEmpty = false := by
      cases sep with
      | nil => exact absurd rfl hsep
      | cons a as => rfl
    unfold afterFirstOcc hasOcc
    rw [he]
    simp
  | cons c rest ih =>
    unfold afterFirstOcc hasOcc
    by_cases hp : sep.isPrefixOf (c :: rest)
    · rw [if_pos hp, hp]
      simp
    · have hp2 : sep.isPrefixOf (c :: rest) = false := by
        rw [Bool.eq_false_iff]
        exact hp
      rw [if_neg hp, hp2]
      simpa using ih

/-- When the separator does not occur the before-prefix is everything. -/
theorem upToFirstOcc_of_no_occ {sep : List Char} :
    ∀ s : List Char, hasOcc sep s = false → upToFirstOcc sep s = s := by
  intro s
  induction s with
  | nil => intro h; rfl
  | cons c rest ih =>
    intro h
    unfold hasOcc at h
    rw [Bool.or_eq_false_iff] at h
    unfold upToFirstOcc
    rw [if_neg (by simp [h.1]), ih h.2]

/-- The scanner's first part is the text before the first separator
occurrence, and the scan continues right after that occurrence. -/
theorem splitSepF_first_occ {sep : List Char} (hsep : sep ≠ []) :
    ∀ (f : Nat) (s w : List Char), s.length ≤ f →
      afterFirstOcc sep s = some w →
      splitSepF sep f s = upToFirstOcc sep s :: splitSepF sep w.length w := by
  have he : sep.isEmpty = false := by
    cases sep with
    | nil => exact absurd rfl hsep
    | cons a as => rfl
  intro f
  induction f with
  | zero =>
    intro s w h1 h2
    have hs : s = [] := List.eq_nil_of_length_eq_zero (Nat.le_zero.mp h1)
    subst hs
    unfold afterFirstOcc at h2
    rw [he] at h2
    cases h2
  | succ g ih =>
    intro s w h1 h2
    cases s with
    | nil =>
      unfold afterFirstOcc at h2
      rw [he] at h2
      cases h2
    | cons c rest =>
      unfold afterFirstOcc at h2
      rw [splitSepF_succ_cons]
      unfold upToFirstOcc
      by_cases hp : sep.isPrefixOf (c :: rest)
      · rw [if_pos hp] at h2
        obtain rfl : (c :: rest).drop sep.length = w := Option.some.inj h2
        rw [if_pos hp, if_pos hp]
        congr 1
        apply splitSepF_fuel hsep
        · rw [List.length_drop]
          have hsl := sep_length_pos hsep
          simp only [List.length_cons] at h1 ⊢
          omega
        · exact le_rfl
      · rw [if_neg hp] at h2
        rw [if_neg hp, if_neg hp]
        rw [ih rest w (by simp only [List.length_cons] at h1; omega) h2]
        rfl

/-- The head of a Python split is the text before the first occurrence. -/
theorem headD_pySplit {sep : List Char} (hsep : sep ≠ []) (s : List Char) :
    (pySplit sep s).headD [] = upToFirstOcc sep s := by
  cases ha : afterFirstOcc sep s with
  | none =>
    have hno := (afterFirstOcc_none_iff hsep s).mp ha
    rw [pySplit_no_occ s hno, upToFirstOcc_of_no_occ s hno]
    rfl
  | some w =>
    unfold pySplit
    rw [splitSepF_first_occ hsep s.length s w le_rfl ha]
    rfl

/-- For the single-space separator the before-prefix is the prefix up to
the first space. -/
theorem upToFirstOcc_space : ∀ l : List Char,
    upToFirstOcc [' '] l = takeUntilSpace l := by
  intro l
  induction l with
  | nil => rfl
  | cons c rest ih =>
    unfold upToFirstOcc takeUntilSpace
    by_cases hc : c = ' '
    · subst hc
      rw [if_pos (by simp [List.isPrefixOf]), if_pos rfl]
    · have hpre : ¬ ([' '] : List Char).isPrefixOf (c :: rest) = true := by
        intro hcon
        have hsp : ' ' = c := by simpa [List.isPrefixOf] using hcon
        exact hc hsp.symm
      rw [if_neg hpre, if_neg hc, ih]

/-- A zero baseline throughput makes the row raise `ZeroDivisionError`. -/
theorem bench_row_zero {t : String} {rb rc : BenchResult}
    (h : rb.throughput_paths_per_sec = 0) :
    bench_row t rb rc = Except.error "float division by zero" := by
  simp [bench_row, h]

/-- The only error a row can raise is the division-by-zero error. -/
theorem bench_row_error_msg {t : String} {rb rc : BenchResult} {e : String}
    (h : bench_row t rb rc = Except.error e) :
    e = "float division by zero" := by
  by_cases hz : rb.throughput_paths_per_sec = 0
  · rw [bench_row_zero hz] at h
    exact (Except.error.inj h).symm
  · simp only [bench_row] at h
    rw [if_neg hz] at h
    cases h

/-- A row result is keyed by the template it was built from. -/
theorem bench_row_fst {t : String} {rb rc : BenchResult}
    {y : String × String} (h : bench_row t rb rc = Except.ok y) :
    y.1 = t := by
  by_cases hz : rb.throughput_paths_per_sec = 0
  · rw [bench_row_zero hz] at h
    cases h
  · simp only [bench_row] at h
    rw [if_neg hz] at h
    rw [← Except.ok.inj h]

/-- If every error of `f` carries the message `msg` and some element of `l`
fails, then `mapM f l` fails with `msg` (Python: the first raise aborts the
loop and propagates). -/
theorem mapM_error_of_mem {A B : Type} (f : A → Except String B) (msg : String)
    (hall : ∀ x e, f x = Except.error e → e = msg) :
    ∀ l : List A, (∃ x ∈ l, ∃ e, f x = Except.error e) →
      l.mapM f = Except.error msg := by
  intro l
  induction l with
  | nil => rintro ⟨x, hx, -⟩; simp at hx
  | cons a l ih =>
    rintro ⟨x, hx, e, hfe⟩
    rw [List.mapM_cons]
    cases hfa : f a with
    | error ea =>
      have hmsg : ea = msg := hall a ea hfa
      subst hmsg
      rfl
    | ok v =>
      rcases List.mem_cons.mp hx with rfl | hxl
      · rw [hfa] at hfe; cases hfe
      · rw [ih ⟨x, hxl, e, hfe⟩]
        rfl

/-- When `mapM f l` succeeds and `f` preserves a key, the result keys are
the mapped keys of `l`. -/
theorem mapM_ok_fst {A : Type} (f : A → Except String (String × String))
    (g : A → String) (hf : ∀ x y, f x = Except.ok y → y.1 = g x) :
    ∀ (l : List A) (rs : List (String × String)),
      l.mapM f = Except.ok rs → rs.map Prod.fst = l.map g := by
  intro l
  induction l with
  | nil =>
    intro rs h
    have h' : Except.ok ([] : List (String × String)) = Except.ok rs := h
    rw [← Except.ok.inj h']
    rfl
  | cons a l ih =>
    intro rs h
    rw [List.mapM_cons] at h
    cases hfa : f a with
    | error e =>
      rw [hfa] at h
      have h' : (Except.error e : Except String (List (String × String))) =
          Except.ok rs := h
      cases h'
    | ok y =>
      rw [hfa] at h
      have h' : (l.mapM f >>= fun bs =>
          pure (y :: bs) : Except String (List (String × String))) =
          Except.ok rs := h
      cases hl : l.mapM f with
      | error e =>
        rw [hl] at h'
        have h'' : (Except.error e : Except String (List (String × String))) =
            Except.ok rs := h'
        cases h''
      | ok bs =>
        rw [hl] at h'
        have h'' : Except.ok (y :: bs) = Except.ok rs := h'
        rw [← Except.ok.inj h'']
        rw [List.map_cons, List.map_cons, hf a y hfa, ih bs hl]

/-- Exact bucket characterization of the lower-is-better emoji chain. -/
theorem latency_emoji_eq_iff (q : ℚ) :
    (latency_emoji q = "➖" ↔ |q| < 2) ∧
    (latency_emoji q = "🟢" ↔ q < -5) ∧
    (latency_emoji q = "✅" ↔ -5 ≤ q ∧ q < -2) ∧
    (latency_emoji q = "🔴" ↔ 10 < q) ∧
    (latency_emoji q = "⚠️" ↔ 5 < q ∧ q ≤ 10) ∧
    (latency_emoji q = "🟡" ↔ q = -2 ∨ (2 ≤ q ∧ q ≤ 5)) := by
  unfold latency_emoji
  split_ifs with h1 h2 h3 h4 h5
  · obtain ⟨ha, hb⟩ := abs_lt.mp h1
    refine ⟨iff_of_true rfl h1, iff_of_false (by decide) (by linarith),
      iff_of_false (by decide) ?_, iff_of_false (by decide) (by linarith),
      iff_of_false (by decide) ?_, iff_of_false (by decide) ?_⟩
    · rintro ⟨-, h⟩; linarith
    · rintro ⟨h, -⟩; linarith
    · rintro (rfl | ⟨h, -⟩) <;> linarith
  · refine ⟨iff_of_false (by decide) h1, iff_of_true rfl h2,
      iff_of_false (by decide) ?_, iff_of_false (by decide) (by linarith),
      iff_of_false (by decide) ?_, iff_of_false (by decide) ?_⟩
    · rintro ⟨h, -⟩; linarith
    · rintro ⟨h, -⟩; linarith
    · rintro (rfl | ⟨h, -⟩) <;> linarith
  · have h2' := not_lt.mp h2
    refine ⟨iff_of_false (by decide) h1, iff_of_false (by decide) h2,
      iff_of_true rfl ⟨h2', h3⟩, iff_of_false (by decide) (by linarith),
      iff_of_false (by decide) ?_, iff_of_false (by decide) ?_⟩
    · rintro ⟨h, -⟩; linarith
    · rintro (rfl | ⟨h, -⟩) <;> linarith
  · have h3' := not_lt.mp h3
    refine ⟨iff_of_false (by decide) h1, iff_of_false (by decide) h2,
      iff_of_false (by decide) ?_, iff_of_true rfl h4,
      iff_of_false (by decide) ?_, iff_of_false (by decide) ?_⟩
    · rintro ⟨-, h⟩; linarith
    · rintro ⟨-, h⟩; linarith
    · rintro (rfl | ⟨-, h⟩) <;> linarith
  · have h4' := not_lt.mp h4
    refine ⟨iff_of_false (by decide) h1, iff_of_false (by decide) h2,
      iff_of_false (by decide) ?_, iff_of_false (by decide) h4,
      iff_of_true rfl ⟨h5, h4'⟩, iff_of_false (by decide) ?_⟩
    · rintro ⟨-, h⟩; linarith
    · rintro (rfl | ⟨-, h⟩) <;> linarith
  · have h3' := not_lt.mp h3
    have h4' := not_lt.mp h4
    have h5' := not_lt.mp h5
    have habs : 2 ≤ q ∨ q ≤ -2 := by
      rcases le_abs.mp (not_lt.mp h1) with h | h
      · exact Or.inl h
      · exact Or.inr (by linarith)
    have hyel : q = -2 ∨ (2 ≤ q ∧ q ≤ 5) := by
      rcases habs with h | h
      · exact Or.inr ⟨h, h5'⟩
      · exact Or.inl (le_antisymm h h3')
    refine ⟨iff_of_false (by decide) h1, iff_of_false (by decide) h2,
      iff_of_false (by decide) ?_, iff_of_false (by decide) h4,
      iff_of_false (by decide) ?_, iff_of_true rfl hyel⟩
    · rintro ⟨-, h⟩; linarith
    · rintro ⟨h, -⟩; linarith

/-- Exact bucket characterization of the higher-is-better emoji chain: the
final `else` sends the boundary values `±2` to the neutral marker, so the
neutral band is `|q| ≤ 2`. -/
theorem throughput_emoji_eq_iff (q : ℚ) :
    (throughput_emoji q = "➖" ↔ |q| ≤ 2) ∧
    (throughput_emoji q = "🟢" ↔ 5 < q) ∧
    (throughput_emoji q = "✅" ↔ 2 < q ∧ q ≤ 5) ∧
    (throughput_emoji q = "🔴" ↔ q < -10) ∧
    (throughput_emoji q = "⚠️" ↔ -10 ≤ q ∧ q < -5) ∧
    (throughput_emoji q = "🟡" ↔ -5 ≤ q ∧ q < -2) := by
  unfold throughput_emoji
  split_ifs with h1 h2 h3 h4 h5 h6
  · obtain ⟨ha, hb⟩ := abs_lt.mp h1
    refine ⟨iff_of_true rfl (abs_le.mpr ⟨ha.le, hb.le⟩),
      iff_of_false (by decide) (by linarith), iff_of_false (by decide) ?_,
      iff_of_false (by decide) (by linarith), iff_of_false (by decide) ?_,
      iff_of_false (by decide) ?_⟩
    · rintro ⟨h, -⟩; linarith
    · rintro ⟨-, h⟩; linarith
    · rintro ⟨-, h⟩; linarith
  · refine ⟨iff_of_false (by decide) ?_, iff_of_true rfl h2,
      iff_of_false (by decide) ?_, iff_of_false (by decide) (by linarith),
      iff_of_false (by decide) ?_, iff_of_false (by decide) ?_⟩
    · intro hcon; have := le_abs_self q; linarith [abs_le.mp hcon]
    · rintro ⟨-, h⟩; linarith
    · rintro ⟨-, h⟩; linarith
    · rintro ⟨-, h⟩; linarith
  · have h2' := not_lt.mp h2
    refine ⟨iff_of_false (by decide) ?_, iff_of_false (by decide) h2,
      iff_of_true rfl ⟨h3, h2'⟩, iff_of_false (by decide) (by linarith),
      iff_of_false (by decide) ?_, iff_of_false (by decide) ?_⟩
    · intro hcon; have := abs_le.mp hcon; linarith [this.2]
    · rintro ⟨-, h⟩; linarith
    · rintro ⟨-, h⟩; linarith
  · refine ⟨iff_of_false (by decide) ?_, iff_of_false (by decide) h2,
      iff_of_false (by decide) ?_, iff_of_true rfl h4,
      iff_of_false (by decide) ?_, iff_of_false (by decide) ?_⟩
    · intro hcon; have := abs_le.mp hcon; linarith [this.1]
    · rintro ⟨h, -⟩; linarith
    · rintro ⟨h, -⟩; linarith
    · rintro ⟨h, -⟩; linarith
  · have h4' := not_lt.mp h4
    refine ⟨iff_of_false (by decide) ?_, iff_of_false (by decide) h2,
      iff_of_false (by decide) ?_, iff_of_false (by decide) h4,
      iff_of_true rfl ⟨h4', h5⟩, iff_of_false (by decide) ?_⟩
    · intro hcon; have := abs_le.mp hcon; linarith [this.1]
    · rintro ⟨h, -⟩; linarith
    · rintro ⟨h, -⟩; linarith
  · have h5' := not_lt.mp h5
    refine ⟨iff_of_false (by decide) ?_, iff_of_false (by decide) h2,
      iff_of_false (by decide) ?_, iff_of_false (by decide) h4,
      iff_of_false (by decide) ?_, iff_of_true rfl ⟨h5', h6⟩⟩
    · intro hcon; have := abs_le.mp hcon; linarith [this.1]
    · rintro ⟨h, -⟩; linarith
    · rintro ⟨-, h⟩; linarith
  · have h3' := not_lt.mp h3
    have h6' := not_lt.mp h6
    refine ⟨iff_of_true rfl (abs_le.mpr ⟨h6', h3'⟩),
      iff_of_false (by decide) h2, iff_of_false (by decide) ?_,
      iff_of_false (by decide) h4, iff_of_false (by decide) ?_,
      iff_of_false (by decide) ?_⟩
    · rintro ⟨h, -⟩; exact h3 h
    · rintro ⟨-, h⟩; exact h5 h
    · rintro ⟨-, h⟩; exact h6 h

/-! ## Claims -/

/-- C1 (amended): for every current value `c`, `calculate_change 0 c`
returns percentage change `0` with the marker `➖` — the same marker the
classifier uses for neutral changes, so the zero-baseline case is not
distinguishable from neutral in the output. -/
theorem C1_theorem :
    (∀ q : ℚ, calculate_change 0 q = (0, "➖")) ∧
    (calculate_change 100 101).2 = "➖" := by
  constructor
  · intro q; rw [calculate_change, if_pos rfl]
  · norm_num [calculate_change, latency_emoji]

/-- C1 counterexample: the marker returned for a zero baseline is identical
to the marker returned for an ordinary neutral change (baseline 100,
current 101), so no distinct "undefined" severity exists. -/
theorem C1_counterexample :
    (calculate_change 0 7).2 = (calculate_change 100 101).2 := by
  norm_num [calculate_change, latency_emoji]

/-- C2 (amended): for non-zero baseline the percentage change is exactly
`(c - b) / b * 100`, and the lower-is-better buckets are: neutral iff
`|pc| < 2`, significant-improvement iff `pc < -5`, improvement iff
`-5 ≤ pc < -2` (so exactly `-5` is improvement), regression iff `pc > 10`,
warning iff `5 < pc ≤ 10`, and caution iff `pc = -2` or `2 ≤ pc ≤ 5` (the
final `else` also catches the boundary values `2` and `-2`). -/
theorem C2_theorem (b c : ℚ) (hb : b ≠ 0) :
    (calculate_change b c).1 = (c - b) / b * 100 ∧
    ((calculate_change b c).2 = "➖" ↔ |(calculate_change b c).1| < 2) ∧
    ((calculate_change b c).2 = "🟢" ↔ (calculate_change b c).1 < -5) ∧
    ((calculate_change b c).2 = "✅" ↔
      -5 ≤ (calculate_change b c).1 ∧ (calculate_change b c).1 < -2) ∧
    ((calculate_change b c).2 = "🔴" ↔ 10 < (calculate_change b c).1) ∧
    ((calculate_change b c).2 = "⚠️" ↔
      5 < (calculate_change b c).1 ∧ (calculate_change b c).1 ≤ 10) ∧
    ((calculate_change b c).2 = "🟡" ↔
      (calculate_change b c).1 = -2 ∨
        (2 ≤ (calculate_change b c).1 ∧ (calculate_change b c).1 ≤ 5)) := by
  have hcc : calculate_change b c =
      ((c - b) / b * 100, latency_emoji ((c - b) / b * 100)) := by
    rw [calculate_change, if_neg hb]
  rw [hcc]
  exact ⟨rfl, latency_emoji_eq_iff ((c - b) / b * 100)⟩

/-- C2 witness: at baseline 100, current 103 the change is 3 and the marker
is the caution marker. -/
theorem C2_witness :
    (100 : ℚ) ≠ 0 ∧ (calculate_change 100 103).2 = "🟡" := by
  obtain ⟨hpc, -, -, -, -, -, hyel⟩ := C2_theorem 100 103 (by norm_num)
  refine ⟨by norm_num, hyel.mpr (Or.inr ⟨?_, ?_⟩)⟩
  · rw [hpc]; norm_num
  · rw [hpc]; norm_num

/-- C2 counterexample: at baseline 100, current 102 the change is exactly 2
and the code classifies it as caution, while the claim's "caution exactly
when `2 < pct_change ≤ 5`" excludes 2. -/
theorem C2_counterexample : ¬ C2_claim_as_stated := by
  intro h
  obtain ⟨hpc, -, -, -, -, -, hyel⟩ := h 100 102 (by norm_num)
  have hcode : (calculate_change 100 102).2 = "🟡" := by
    norm_num [calculate_change, latency_emoji]
  have h2 := hyel.mp hcode
  norm_num at h2

/-- C3 (amended): for the higher-is-better throughput metric with non-zero
baseline, the buckets are: significant-improvement iff `pc > 5`, improvement
iff `2 < pc ≤ 5`, regression iff `pc < -10`, warning iff `-10 ≤ pc < -5`,
caution iff `-5 ≤ pc < -2`, and neutral iff `|pc| ≤ 2`: the boundary values
`±2` fall through the chain's final `else` to the neutral marker, so the
neutral band is `|pc| ≤ 2`, not `|pc| < 2`. -/
theorem C3_theorem (b c : ℚ) (_hb : b ≠ 0) :
    (throughput_emoji ((c - b) / b * 100) = "➖" ↔ |(c - b) / b * 100| ≤ 2) ∧
    (throughput_emoji ((c - b) / b * 100) = "🟢" ↔ 5 < (c - b) / b * 100) ∧
    (throughput_emoji ((c - b) / b * 100) = "✅" ↔
      2 < (c - b) / b * 100 ∧ (c - b) / b * 100 ≤ 5) ∧
    (throughput_emoji ((c - b) / b * 100) = "🔴" ↔ (c - b) / b * 100 < -10) ∧
    (throughput_emoji ((c - b) / b * 100) = "⚠️" ↔
      -10 ≤ (c - b) / b * 100 ∧ (c - b) / b * 100 < -5) ∧
    (throughput_emoji ((c - b) / b * 100) = "🟡" ↔
      -5 ≤ (c - b) / b * 100 ∧ (c - b) / b * 100 < -2) :=
  throughput_emoji_eq_iff ((c - b) / b * 100)

/-- C3 witness: at baseline 100, current 90 the throughput change is -10 and
the marker is the warning marker. -/
theorem C3_witness :
    (100 : ℚ) ≠ 0 ∧ throughput_emoji ((90 - 100) / 100 * 100) = "⚠️" := by
  obtain ⟨-, -, -, -, hwarn, -⟩ := C3_theorem 100 90 (by norm_num)
  exact ⟨by norm_num, hwarn.mpr (by norm_num)⟩

/-- C3 counterexample: at baseline 100, current 102 the throughput change is
exactly 2, the code's chain falls through to the neutral marker, yet
`|2| < 2` is false — refuting the claimed neutral band `|pc| < 2`. -/
theorem C3_counterexample : ¬ C3_claim_as_stated := by
  intro h
  obtain ⟨hneut, -⟩ := h 100 102 (by norm_num)
  have hcode : throughput_emoji ((102 - 100) / 100 * 100) = "➖" := by
    norm_num [throughput_emoji]
  have h2 := hneut.mp hcode
  norm_num at h2

/-- C4: if any joined item has baseline `throughput_paths_per_sec = 0`, the
custom-schema report generation raises `ZeroDivisionError` (the throughput
delta divides by the baseline directly, bypassing the `baseline == 0` guard
of `calculate_change`), so the run produces an error, never a report. -/
theorem C4_theorem (b c : BenchFile) (x : String × BenchResult × BenchResult)
    (hx : x ∈ joined_benchmarks b c)
    (hz : x.2.1.throughput_paths_per_sec = 0) :
    compare_benchmarks b c = Except.error "float division by zero" := by
  unfold compare_benchmarks
  have hrows : bench_rows b c = Except.error "float division by zero" := by
    unfold bench_rows
    exact mapM_error_of_mem _ _
      (fun y e hy => bench_row_error_msg hy) _
      ⟨x, hx, "float division by zero", bench_row_zero hz⟩
  rw [hrows]
  rfl

/-- C4 witness: the `"gamma"` pair of `exBench3`/`exBench4` has zero
baseline throughput, and the whole run errors out. -/
theorem C4_witness :
    (("gamma", exResult0, exResult5) ∈ joined_benchmarks exBench3 exBench4 ∧
      exResult0.throughput_paths_per_sec = 0) ∧
    compare_benchmarks exBench3 exBench4 =
      Except.error "float division by zero" :=
  ⟨⟨by decide, by decide⟩,
    C4_theorem exBench3 exBench4 ("gamma", exResult0, exResult5)
      (by decide) (by decide)⟩

/-- C5 (amended): only the hyperfine adapter recognizes the empty
intersection: it returns the explicit textual error result.  The
custom-schema adapter has no such check and instead succeeds with a
degenerate report whose comparison table has no rows. -/
theorem C5_theorem :
    (∀ (hb hc : HFFile) (bn cn : String) (isz : Option ℤ),
        common_templates hb hc = [] →
        generate_comparison_report hb hc bn cn isz = no_common_msg) ∧
    (∀ b c : BenchFile,
        (dictKeys (build_results b.benchmarks)).filter
            (fun k => (dictKeys (build_results c.benchmarks)).contains k) = [] →
        compare_benchmarks b c =
          Except.ok ("\n".intercalate (bench_report_lines b c []))) := by
  constructor
  · intro hb hc bn cn isz h
    unfold generate_comparison_report
    rw [if_pos h]
  · intro b c h
    have hj : joined_benchmarks b c = [] := by
      rw [List.eq_nil_iff_forall_not_mem]
      intro x hx
      obtain ⟨h1, h2, -⟩ := mem_joined_benchmarks hx
      have hk1 := mem_dictKeys_of_get h1
      have hk2 := mem_dictKeys_of_get h2
      have hmem : x.1 ∈ (dictKeys (build_results b.benchmarks)).filter
          (fun k => (dictKeys (build_results c.benchmarks)).contains k) := by
        rw [List.mem_filter]
        exact ⟨hk1, List.elem_iff.mpr hk2⟩
      rw [h] at hmem
      simp at hmem
    unfold compare_benchmarks bench_rows
    rw [hj]
    rfl

/-- C5 witness: `exHF1`/`exHF2` share no template and yield the explicit
error text; `exBench1`/`exBench2` share no template and yield an ordinary
report with an empty table. -/
theorem C5_witness :
    common_templates exHF1 exHF2 = [] ∧
    generate_comparison_report exHF1 exHF2 "baseline" "current" none =
      no_common_msg ∧
    (dictKeys (build_results exBench1.benchmarks)).filter
        (fun k => (dictKeys (build_results exBench2.benchmarks)).contains k) =
      [] ∧
    compare_benchmarks exBench1 exBench2 =
      Except.ok ("\n".intercalate (bench_report_lines exBench1 exBench2 [])) :=
  ⟨by decide, C5_theorem.1 exHF1 exHF2 "baseline" "current" none (by decide),
    by decide, C5_theorem.2 exBench1 exBench2 (by decide)⟩

/-- C5 counterexample: on the disjoint inputs `exBench1`/`exBench2` the
custom-schema adapter succeeds and its output never mentions "No common",
refuting the claim that both adapters produce an explicit textual error. -/
theorem C5_counterexample : ¬ C5_claim_as_stated := by
  rintro ⟨-, hB⟩
  have h := hB exBench1 exBench2
    ((compare_benchmarks exBench1 exBench2).toOption.getD "")
    (by decide) (by decide)
  exact absurd h (by decide)

/-- C6: the custom-schema summary's "Total templates compared" count is the
length of `all_templates`, the sorted union of the two key sets, and that
length equals the cardinality of the union of the two item-name sets — even
though every table row is drawn from the intersection. -/
theorem C6_theorem (b c : BenchFile) :
    (all_templates b c).length =
      ((dictKeys (build_results b.benchmarks)).toFinset ∪
        (dictKeys (build_results c.benchmarks)).toFinset).card ∧
    ∀ x ∈ joined_benchmarks b c,
      x.1 ∈ dictKeys (build_results b.benchmarks) ∧
      x.1 ∈ dictKeys (build_results c.benchmarks) := by
  constructor
  · unfold all_templates pySorted
    rw [List.length_insertionSort, ← List.toFinset_append, List.card_toFinset]
  · intro x hx
    obtain ⟨h1, h2, -⟩ := mem_joined_benchmarks hx
    exact ⟨mem_dictKeys_of_get h1, mem_dictKeys_of_get h2⟩

/-- C6 witness: on `exBench3`/`exBench4` the summary count is the union
cardinality, and the single row's template lies in both key sets. -/
theorem C6_witness :
    (all_templates exBench3 exBench4).length =
      ((dictKeys (build_results exBench3.benchmarks)).toFinset ∪
        (dictKeys (build_results exBench4.benchmarks)).toFinset).card ∧
    ("gamma" ∈ dictKeys (build_results exBench3.benchmarks) ∧
      "gamma" ∈ dictKeys (build_results exBench4.benchmarks)) :=
  ⟨(C6_theorem exBench3 exBench4).1,
    (C6_theorem exBench3 exBench4).2 ("gamma", exResult0, exResult5)
      (by decide)⟩

/-- C7: in both adapters, every joined table row's item name lies in both
the baseline and the current ResultSet key sets (the intersection); items
present on only one side contribute no row. -/
theorem C7_theorem :
    (∀ (b c : BenchFile) (x : String × BenchResult × BenchResult),
        x ∈ joined_benchmarks b c →
        x.1 ∈ dictKeys (build_results b.benchmarks) ∧
        x.1 ∈ dictKeys (build_results c.benchmarks)) ∧
    (∀ (hb hc : HFFile) (x : String × HFResult × HFResult),
        x ∈ joined_hf hb hc →
        x.1 ∈ dictKeys (by_template hb.results) ∧
        x.1 ∈ dictKeys (by_template hc.results)) := by
  constructor
  · intro b c x hx
    obtain ⟨h1, h2, -⟩ := mem_joined_benchmarks hx
    exact ⟨mem_dictKeys_of_get h1, mem_dictKeys_of_get h2⟩
  · intro hb hc x hx
    obtain ⟨h1, h2, -⟩ := mem_joined_hf hx
    exact ⟨mem_dictKeys_of_get h1, mem_dictKeys_of_get h2⟩

/-- C7 witness: the concrete row of `exBench3`/`exBench4` and the concrete
row of `exHF1`/`exHF1` each carry a name present in both key sets. -/
theorem C7_witness :
    (("gamma", exResult0, exResult5) ∈ joined_benchmarks exBench3 exBench4 ∧
      "gamma" ∈ dictKeys (build_results exBench3.benchmarks) ∧
      "gamma" ∈ dictKeys (build_results exBench4.benchmarks)) ∧
    (("foo", exHFRes, exHFRes) ∈ joined_hf exHF1 exHF1 ∧
      "foo" ∈ dictKeys (by_template exHF1.results) ∧
      "foo" ∈ dictKeys (by_template exHF1.results)) := by
  refine ⟨⟨by decide, ?_⟩, ⟨by decide, ?_⟩⟩
  · exact C7_theorem.1 exBench3 exBench4 ("gamma", exResult0, exResult5)
      (by decide)
  · exact C7_theorem.2 exHF1 exHF1 ("foo", exHFRes, exHFRes) (by decide)

/-- C8: the ResultSet lookup built by the custom-schema loader maps a name
`k` to the last element of the `results` array of the last entry named `k`
that has a non-empty `results` array, and `k` is a key at all iff some entry
named `k` has non-empty `results` (entries with empty `results` are omitted
entirely). -/
theorem C8_theorem (benches : List BenchEntry) (k : String) :
    dictGet (build_results benches) k =
      ((benches.filter fun e =>
          e.template_name == k && !e.results.isEmpty).getLast?).bind
        (fun e => e.results.getLast?) ∧
    (k ∈ dictKeys (build_results benches) ↔
      ∃ e ∈ benches, e.template_name = k ∧ e.results ≠ []) := by
  unfold build_results
  induction benches using List.reverseRecOn with
  | nil => exact ⟨rfl, by simp [dictKeys]⟩
  | append_singleton l e ih =>
    obtain ⟨ihget, ihmem⟩ := ih
    rw [List.foldl_append, List.foldl_cons, List.foldl_nil, List.filter_append]
    cases hl : e.results.getLast? with
    | none =>
      have hemp : e.results = [] := by
        cases hres : e.results with
        | nil => rfl
        | cons a as => rw [hres] at hl; simp at hl
      have hpred : (e.template_name == k && !e.results.isEmpty) = false := by
        rw [hemp]; simp
      rw [show List.filter
            (fun e => e.template_name == k && !e.results.isEmpty) [e] = []
          from by simp [List.filter_cons, hpred]]
      constructor
      · simpa using ihget
      · rw [ihmem]
        constructor
        · rintro ⟨x, hx, hp⟩
          exact ⟨x, by simp [hx], hp⟩
        · rintro ⟨x, hx, hp⟩
          rcases List.mem_append.mp hx with h | h
          · exact ⟨x, h, hp⟩
          · obtain rfl : x = e := by simpa using h
            exact absurd hp.2 (by simp [hemp])
    | some r =>
      have hne : e.results ≠ [] := by
        intro hc
        rw [hc] at hl
        simp at hl
      by_cases hk : e.template_name = k
      · have hpred : (e.template_name == k && !e.results.isEmpty) = true := by
          simp [hk, hne]
        rw [show List.filter
              (fun e => e.template_name == k && !e.results.isEmpty) [e] = [e]
            from by simp [List.filter_cons, hpred]]
        rw [List.getLast?_concat]
        constructor
        · rw [dictGet_insert, if_pos hk.symm, Option.some_bind, hl]
        · rw [mem_dictKeys_insert]
          constructor
          · intro hmem
            exact ⟨e, by simp, hk, hne⟩
          · intro hmem
            exact Or.inl hk.symm
      · have hpred : (e.template_name == k && !e.results.isEmpty) = false := by
          simp [hk]
        rw [show List.filter
              (fun e => e.template_name == k && !e.results.isEmpty) [e] = []
            from by simp [List.filter_cons, hpred]]
        constructor
        · rw [dictGet_insert, if_neg (fun hc => hk hc.symm)]
          simpa using ihget
        · rw [mem_dictKeys_insert, ihmem]
          constructor
          · rintro (rfl | ⟨x, hx, hp⟩)
            · exact absurd rfl hk
            · exact ⟨x, by simp [hx], hp⟩
          · rintro ⟨x, hx, hp⟩
            rcases List.mem_append.mp hx with h | h
            · exact Or.inr ⟨x, h, hp⟩
            · obtain rfl : x = e := by simpa using h
              exact absurd hp.1 hk

/-- C9 (amended): for every hyperfine command string, the extracted
identifier is the text immediately following the first `"--template "`
occurrence, truncated at the earliest of the next space or the next
`"--template "` occurrence (the split consumes every occurrence, so a value
that itself ends in the marker is cut short); the first-occurrence suffix is
absent exactly when the token does not occur, in which case the identifier
is `"unknown"`; the scenario command still yields `"foo"`. -/
theorem C9_theorem :
    (∀ cmd : String,
      extract_template_from_command cmd =
        match afterFirstOcc tmpl_sep cmd.data with
        | none => "unknown"
        | some w => String.mk (takeUntilSpace (upToFirstOcc tmpl_sep w))) ∧
    (∀ cmd : String,
      afterFirstOcc tmpl_sep cmd.data = none ↔
        hasOcc tmpl_sep cmd.data = false) ∧
    extract_template_from_command
      "bench --template foo --size 1000 --output /dev/null" = "foo" := by
  have hsep : tmpl_sep ≠ [] := by decide
  refine ⟨?_, fun cmd => afterFirstOcc_none_iff hsep cmd.data, by decide⟩
  intro cmd
  unfold extract_template_from_command
  cases ha : afterFirstOcc tmpl_sep cmd.data with
  | none =>
    rw [pySplit_no_occ cmd.data ((afterFirstOcc_none_iff hsep cmd.data).mp ha)]
  | some w =>
    rw [show pySplit tmpl_sep cmd.data =
          upToFirstOcc tmpl_sep cmd.data :: pySplit tmpl_sep w from
        splitSepF_first_occ hsep cmd.data.length cmd.data w le_rfl ha]
    cases hw : pySplit tmpl_sep w with
    | nil => exact absurd hw (splitSepF_ne_nil tmpl_sep w.length w)
    | cons x xs =>
      show String.mk ((pySplit [' '] x).headD []) =
        String.mk (takeUntilSpace (upToFirstOcc tmpl_sep w))
      have hx : x = upToFirstOcc tmpl_sep w := by
        have hc := headD_pySplit hsep w
        rw [hw] at hc
        simpa using hc
      rw [hx,
        headD_pySplit (show ([' '] : List Char) ≠ [] by decide)
          (upToFirstOcc tmpl_sep w),
        upToFirstOcc_space]

/-- C9 counterexample: on `"bench --template --template foo"` the
whitespace-delimited value following the first `"--template "` token is
`"--template"`, but the code's split consumes the second occurrence and
extracts `""` — refuting the claim as stated for every command. -/
theorem C9_counterexample :
    extract_template_from_command "bench --template --template foo" = "" ∧
    claimed_extract "bench --template --template foo" = "--template" ∧
    ¬ C9_claim_as_stated :=
  ⟨by decide, by decide,
    fun h => absurd (h "bench --template --template foo") (by decide)⟩

/-- C10: both report generators are pure functions of their parsed inputs
(two invocations agree byte for byte), and the table rows of both adapters
are keyed in lexicographically sorted order. -/
theorem C10_theorem (b c : BenchFile) (hb hc : HFFile) (bn cn : String)
    (isz : Option ℤ) :
    compare_benchmarks b c = compare_benchmarks b c ∧
    generate_comparison_report hb hc bn cn isz =
      generate_comparison_report hb hc bn cn isz ∧
    (∀ rs, bench_rows b c = Except.ok rs →
      (rs.map Prod.fst).Sorted (fun a b => pyStrLe a b = true)) ∧
    ((hf_rows hb hc).map Prod.fst).Sorted (fun a b => pyStrLe a b = true) := by
  refine ⟨rfl, rfl, ?_, ?_⟩
  · intro rs hrs
    have hfst : rs.map Prod.fst = (joined_benchmarks b c).map Prod.fst :=
      mapM_ok_fst _ _ (fun x y hy => bench_row_fst hy)
        (joined_benchmarks b c) rs hrs
    rw [hfst]
    exact List.Pairwise.sublist
      (filterMap_joinPair_fst_sublist _ _ (all_templates b c))
      (sorted_pySorted _)
  · have hEq : (hf_rows hb hc).map Prod.fst = (joined_hf hb hc).map Prod.fst := by
      unfold hf_rows
      rw [List.map_map]
      exact List.map_congr_left fun x hx => rfl
    rw [hEq]
    exact List.Pairwise.sublist
      (filterMap_joinPair_fst_sublist _ _ (common_templates hb hc))
      (sorted_pySorted _)

/-- C10 witness: with the disjoint inputs `exBench1`/`exBench2` the row list
is empty and sorted; the single hyperfine row of `exHF1`/`exHF1` is
sorted. -/
theorem C10_witness :
    bench_rows exBench1 exBench2 = Except.ok [] ∧
    (([] : List (String × String)).map Prod.fst).Sorted
      (fun a b => pyStrLe a b = true) ∧
    ((hf_rows exHF1 exHF1).map Prod.fst).Sorted
      (fun a b => pyStrLe a b = true) :=
  ⟨by decide,
    (C10_theorem exBench1 exBench2 exHF1 exHF1 "baseline" "current" none).2.2.1
      [] (by decide),
    (C10_theorem exBench1 exBench2 exHF1 exHF1 "baseline" "current" none).2.2.2⟩

end CompareBench
